import Mathlib

/-!
# GoDCCP socket variables

A shallow embedding of `dccp/socket.go`: the record of DCCP socket variables,
its accessors and mutators, and the window computations of RFC 4340,
Section 7.5.1.

Go's `uint64` values are natural numbers below `2 ^ 64`; every arithmetic
operation of the source that can leave that range is reduced modulo `2 ^ 64`
explicitly.  Go's `int` values are integers.
-/

namespace dccp

/-- The modulus of Go's `uint64` arithmetic, `2 ^ 64`. -/
def U64 : Nat := 18446744073709551616

/-- Go's `x + y` on `uint64` operands. -/
def addu64 (x y : Nat) : Nat := (x + y) % U64

/-- Go's `x - y` on `uint64` operands (both below `2 ^ 64`): the difference wraps around. -/
def subu64 (x y : Nat) : Nat := (x + U64 - y) % U64

/-- Go's `x * y` on `uint64` operands. -/
def mulu64 (x y : Nat) : Nat := (x * y) % U64

/-- The conversion `uint64(r)` of a Go `int64`: the two's complement bit pattern read unsigned. -/
def uint64OfInt64 (r : Int) : Nat := Int.toNat (r % (U64 : Int))

/-- The record `socket` of `socket.go`, field by field. -/
structure socket where
  ISS : Nat
  ISR : Nat
  OSR : Nat
  GSS : Nat
  GSR : Nat
  GAR : Nat
  CCIDA : Nat
  CCIDB : Nat
  SWBF : Nat
  SWAF : Nat
  State : Int
  Server : Bool
  ServiceCode : Nat
  PMTU : Int
  CCMPS : Int
  MPS : Int
  RTT : Int
deriving DecidableEq, Repr

/-- The `uint64` fields of a socket hold 64-bit values. -/
def socket.InRange (s : socket) : Prop :=
  s.ISS < U64 ∧ s.ISR < U64 ∧ s.OSR < U64 ∧ s.GSS < U64 ∧ s.GSR < U64 ∧ s.GAR < U64 ∧
    s.SWBF < U64 ∧ s.SWAF < U64

instance (s : socket) : Decidable s.InRange := by
  unfold socket.InRange
  infer_instance

/-- Go's zero value of `socket`. -/
def socket.zero : socket :=
  { ISS := 0, ISR := 0, OSR := 0, GSS := 0, GSR := 0, GAR := 0, CCIDA := 0, CCIDB := 0,
    SWBF := 0, SWAF := 0, State := 0, Server := false, ServiceCode := 0,
    PMTU := 0, CCMPS := 0, MPS := 0, RTT := 0 }

/-! ## Constants -/

def MSL : Nat := 2 * 60000000000
def PARTOPEN_BACKOFF_FIRST : Nat := 200000000
def PARTOPEN_BACKOFF_MAX : Nat := 4 * MSL

def CLOSED : Int := 0
def LISTEN : Int := 1
def REQUEST : Int := 2
def RESPOND : Int := 3
def PARTOPEN : Int := 4
def OPEN : Int := 5
def CLOSEREQ : Int := 6
def CLOSING : Int := 7
def TIMEWAIT : Int := 8

/-! ## Methods -/

def socket.SetServer (s : socket) (v : Bool) : socket := { s with Server := v }
def socket.IsServer (s : socket) : Bool := s.Server

def socket.GetState (s : socket) : Int := s.State
def socket.SetState (s : socket) (v : Int) : socket := { s with State := v }

/-- The method `ChooseISS`; `r` is the value drawn by `rand.Int63()`.  The result is the
socket after the call and the value returned. -/
def socket.ChooseISS (s : socket) (r : Int) : socket × Nat :=
  let iss := uint64OfInt64 r &&& 0xffffff
  ({ s with ISS := iss }, iss)

def socket.SetISR (s : socket) (v : Nat) : socket := { s with ISR := v }

def socket.GetOSR (s : socket) : Nat := s.OSR
def socket.SetOSR (s : socket) (v : Nat) : socket := { s with OSR := v }

def socket.GetGSS (s : socket) : Nat := s.GSS
def socket.SetGSS (s : socket) (v : Nat) : socket := { s with GSS := v }

def maxu64 (x y : Nat) : Nat :=
  if x > y then x else y

def socket.GetGSR (s : socket) : Nat := s.GSR
def socket.SetGSR (s : socket) (v : Nat) : socket := { s with GSR := v }
def socket.UpdateGSR (s : socket) (v : Nat) : socket := { s with GSR := maxu64 s.GSR v }

def socket.GetGAR (s : socket) : Nat := s.GAR
def socket.SetGAR (s : socket) (v : Nat) : socket := { s with GAR := v }
def socket.UpdateGAR (s : socket) (v : Nat) : socket := { s with GAR := maxu64 s.GAR v }

/-- The method `GetSWLH`: `maxu64(s.GSR+1-s.SWBF/4, s.ISR), s.GSR + (3*s.SWBF)/4`. -/
def socket.GetSWLH (s : socket) : Nat × Nat :=
  (maxu64 (subu64 (addu64 s.GSR 1) (s.SWBF / 4)) s.ISR, addu64 s.GSR (mulu64 3 s.SWBF / 4))

/-- The method `GetAWLH`: `maxu64(s.GSS+1-s.SWAF, s.ISS), s.GSS`. -/
def socket.GetAWLH (s : socket) : Nat × Nat :=
  (maxu64 (subu64 (addu64 s.GSS 1) s.SWAF) s.ISS, s.GSS)

def socket.InAckWindow (s : socket) (x : Nat) : Bool :=
  let (awl, awh) := s.GetAWLH
  decide (awl ≤ x) && decide (x ≤ awh)

/-- A socket whose sequence-window variables are those of the scenarios of the
specification; the other fields are zero. -/
def scenario1 : socket := { socket.zero with ISR := 100, GSR := 130, SWBF := 40 }

def scenario2 : socket := { socket.zero with ISS := 150, GSS := 200, SWAF := 50 }

/-- A 64-bit socket at the top of the `uint64` range: `GSR = 2 ^ 64 - 1`, `SWBF = 4`. -/
def highSocket : socket := { socket.zero with GSR := 18446744073709551615, SWBF := 4 }

/-- A socket right after its first packet was sent with a small initial sequence number:
`ISS = GSS = 5`, and `SWAF = 100`, the default Sequence Window of RFC 4340. -/
def earlySocket : socket := { socket.zero with ISS := 5, GSS := 5, SWAF := 100 }

/-- A socket whose received counters stand at the last sequence number before the
48-bit space wraps: `GSR = GAR = 2 ^ 48 - 1`. -/
def wrapSocket : socket := { socket.zero with GSR := 281474976710655, GAR := 281474976710655 }

/-! ## Circular sequence space

These two definitions follow the words of the specification, not the source: they say
what "greater" means in the sequence space modulo `2 ^ 48`, for comparison with
`maxu64`. -/

/-- In circular sequence space `b` is greater than `a` iff
`0 < (b - a) mod 2 ^ 48 < 2 ^ 47`. -/
def circGreater (a b : Nat) : Prop :=
  0 < ((b : Int) - (a : Int)) % 2 ^ 48 ∧ ((b : Int) - (a : Int)) % 2 ^ 48 < 2 ^ 47

instance (a b : Nat) : Decidable (circGreater a b) := by
  unfold circGreater
  infer_instance

/-- The greater of `x` and `y` in circular sequence space: `y` when `y` is circularly
greater than `x`, and `x` otherwise. -/
def circMax (x y : Nat) : Nat :=
  if circGreater x y then y else x

/-! ## Calls and runs -/

/-- The methods of `socket`, each with the arguments of one call; the argument of
`ChooseISS` is the value drawn by `rand.Int63()`. -/
inductive Call where
  | SetServer (v : Bool)
  | IsServer
  | GetState
  | SetState (v : Int)
  | ChooseISS (r : Int)
  | SetISR (v : Nat)
  | GetOSR
  | SetOSR (v : Nat)
  | GetGSS
  | SetGSS (v : Nat)
  | GetGSR
  | SetGSR (v : Nat)
  | UpdateGSR (v : Nat)
  | GetGAR
  | SetGAR (v : Nat)
  | UpdateGAR (v : Nat)
  | GetSWLH
  | GetAWLH
  | InAckWindow (x : Nat)
deriving DecidableEq, Repr

/-- The socket after one call.  A method whose body holds no assignment leaves the
socket as it found it. -/
def socket.after (s : socket) : Call → socket
  | .SetServer v => s.SetServer v
  | .IsServer => s
  | .GetState => s
  | .SetState v => s.SetState v
  | .ChooseISS r => (s.ChooseISS r).1
  | .SetISR v => s.SetISR v
  | .GetOSR => s
  | .SetOSR v => s.SetOSR v
  | .GetGSS => s
  | .SetGSS v => s.SetGSS v
  | .GetGSR => s
  | .SetGSR v => s.SetGSR v
  | .UpdateGSR v => s.UpdateGSR v
  | .GetGAR => s
  | .SetGAR v => s.SetGAR v
  | .UpdateGAR v => s.UpdateGAR v
  | .GetSWLH => s
  | .GetAWLH => s
  | .InAckWindow _ => s

/-- The socket after a sequence of calls, the head of the list first. -/
def socket.afterAll (s : socket) (cs : List Call) : socket :=
  cs.foldl socket.after s

/-- The arguments of a call fit their Go types: `uint64`, `int` (64 bits), and a
non-negative `int64` for the draw of `rand.Int63()`. -/
def Call.InRange : Call → Prop
  | .SetState v => -9223372036854775808 ≤ v ∧ v < 9223372036854775808
  | .ChooseISS r => 0 ≤ r ∧ r < 9223372036854775808
  | .SetISR v => v < U64
  | .SetOSR v => v < U64
  | .SetGSS v => v < U64
  | .SetGSR v => v < U64
  | .UpdateGSR v => v < U64
  | .SetGAR v => v < U64
  | .UpdateGAR v => v < U64
  | .InAckWindow x => x < U64
  | _ => True

/-- The calls that assign a field. -/
def Call.mutates : Call → Bool
  | .SetServer _ => true
  | .SetState _ => true
  | .ChooseISS _ => true
  | .SetISR _ => true
  | .SetOSR _ => true
  | .SetGSS _ => true
  | .SetGSR _ => true
  | .UpdateGSR _ => true
  | .SetGAR _ => true
  | .UpdateGAR _ => true
  | _ => false

/-- The call is a `SetState`. -/
def Call.isSetState : Call → Bool
  | .SetState _ => true
  | _ => false

/-- The sequence-number invariant of the data model: `GSR ≥ ISR` and `GSS ≥ ISS`. -/
def socket.SeqInv (s : socket) : Prop := s.ISR ≤ s.GSR ∧ s.ISS ≤ s.GSS

/-- The state tag is one of the nine constants `CLOSED` .. `TIMEWAIT`. -/
def validState (v : Int) : Prop := CLOSED ≤ v ∧ v ≤ TIMEWAIT

/-- What a caller owes the plain setters for the sequence-number invariant to survive
the call: no regressing `SetGSS` or `SetGSR`, an `ISR` not above `GSR`, an `ISS` not
above `GSS`. -/
def Call.keepsOrder (s : socket) : Call → Prop
  | .ChooseISS r => (s.ChooseISS r).2 ≤ s.GSS
  | .SetISR v => v ≤ s.GSR
  | .SetGSS v => s.GSS ≤ v
  | .SetGSR v => s.GSR ≤ v
  | _ => True

instance (c : Call) : Decidable c.InRange := by
  cases c <;> unfold Call.InRange <;> infer_instance

instance (s : socket) : Decidable s.SeqInv := by
  unfold socket.SeqInv
  infer_instance

instance (v : Int) : Decidable (validState v) := by
  unfold validState
  infer_instance

instance (s : socket) (c : Call) : Decidable (c.keepsOrder s) := by
  cases c <;> unfold Call.keepsOrder <;> infer_instance

/-! ## Unsigned 64-bit arithmetic without wrap-around -/

theorem addu64_eq {x y : Nat} (h : x + y < U64) : addu64 x y = x + y :=
  Nat.mod_eq_of_lt h

theorem mulu64_eq {x y : Nat} (h : x * y < U64) : mulu64 x y = x * y :=
  Nat.mod_eq_of_lt h

theorem subu64_eq {x y : Nat} (hy : y ≤ x) (hx : x < U64) : subu64 x y = x - y := by
  unfold subu64
  have e : x + U64 - y = (x - y) + U64 := by omega
  rw [e, Nat.add_mod_right]
  exact Nat.mod_eq_of_lt (by omega)

theorem maxu64_eq_max (x y : Nat) : maxu64 x y = max x y := by
  unfold maxu64
  split <;> omega

/-! ## Window computations -/

/-- C1: when GSR, ISR and SWBF are below 2^48 and SWBF/4 <= GSR + 1, GetSWLH returns
SWL = max(GSR + 1 - SWBF/4, ISR) and SWH = GSR + (3*SWBF)/4 as integers; a socket with
ISR=100, GSR=130, SWBF=40 gets (121, 160). -/
theorem GetSWLH_closed_form (s : socket) (hG : s.GSR < 2 ^ 48) (hI : s.ISR < 2 ^ 48)
    (hW : s.SWBF < 2 ^ 48) (h : s.SWBF / 4 ≤ s.GSR + 1) :
    ((s.GetSWLH.1 : Int) = max ((s.GSR : Int) + 1 - (s.SWBF : Int) / 4) (s.ISR : Int) ∧
      (s.GetSWLH.2 : Int) = (s.GSR : Int) + (3 * (s.SWBF : Int)) / 4) ∧
    (s.ISR = 100 → s.GSR = 130 → s.SWBF = 40 → s.GetSWLH = (121, 160)) := by
  have hW3 : 3 * s.SWBF < U64 := by
    simp only [U64]
    omega
  have hS : s.GSR + 3 * s.SWBF / 4 < U64 := by
    simp only [U64]
    omega
  have key : s.GetSWLH = (max (s.GSR + 1 - s.SWBF / 4) s.ISR, s.GSR + 3 * s.SWBF / 4) := by
    have h1 : addu64 s.GSR 1 = s.GSR + 1 :=
      addu64_eq (by simp only [U64]; omega)
    have h2 : subu64 (s.GSR + 1) (s.SWBF / 4) = s.GSR + 1 - s.SWBF / 4 :=
      subu64_eq h (by simp only [U64]; omega)
    simp only [socket.GetSWLH, h1, h2, mulu64_eq hW3, addu64_eq hS, maxu64_eq_max]
  refine ⟨⟨?_, ?_⟩, ?_⟩
  · rw [key]
    simp only
    omega
  · rw [key]
    simp only
    omega
  · intro h1 h2 h3
    rw [key, h1, h2, h3]
    rfl

theorem GetSWLH_closed_form_witness :
    ((scenario1.GetSWLH.1 : Int) =
        max ((scenario1.GSR : Int) + 1 - (scenario1.SWBF : Int) / 4) (scenario1.ISR : Int) ∧
      (scenario1.GetSWLH.2 : Int) = (scenario1.GSR : Int) + (3 * (scenario1.SWBF : Int)) / 4) ∧
    scenario1.GetSWLH = (121, 160) :=
  have h := GetSWLH_closed_form scenario1 (by decide) (by decide) (by decide) (by decide)
  ⟨h.1, h.2 rfl rfl rfl⟩

/-- C2: when GSS, ISS and SWAF are below 2^48 and SWAF <= GSS + 1, GetAWLH returns
AWL = max(GSS + 1 - SWAF, ISS) and AWH = GSS as integers; a socket with ISS=150,
GSS=200, SWAF=50 gets (151, 200). -/
theorem GetAWLH_closed_form (s : socket) (hG : s.GSS < 2 ^ 48) (hI : s.ISS < 2 ^ 48)
    (hW : s.SWAF < 2 ^ 48) (h : s.SWAF ≤ s.GSS + 1) :
    ((s.GetAWLH.1 : Int) = max ((s.GSS : Int) + 1 - (s.SWAF : Int)) (s.ISS : Int) ∧
      (s.GetAWLH.2 : Int) = (s.GSS : Int)) ∧
    (s.ISS = 150 → s.GSS = 200 → s.SWAF = 50 → s.GetAWLH = (151, 200)) := by
  have key : s.GetAWLH = (max (s.GSS + 1 - s.SWAF) s.ISS, s.GSS) := by
    have h1 : addu64 s.GSS 1 = s.GSS + 1 :=
      addu64_eq (by simp only [U64]; omega)
    have h2 : subu64 (s.GSS + 1) s.SWAF = s.GSS + 1 - s.SWAF :=
      subu64_eq h (by simp only [U64]; omega)
    simp only [socket.GetAWLH, h1, h2, maxu64_eq_max]
  refine ⟨⟨?_, ?_⟩, ?_⟩
  · rw [key]
    simp only
    omega
  · rw [key]
  · intro h1 h2 h3
    rw [key, h1, h2, h3]
    rfl

theorem GetAWLH_closed_form_witness :
    ((scenario2.GetAWLH.1 : Int) =
        max ((scenario2.GSS : Int) + 1 - (scenario2.SWAF : Int)) (scenario2.ISS : Int) ∧
      (scenario2.GetAWLH.2 : Int) = (scenario2.GSS : Int)) ∧
    scenario2.GetAWLH = (151, 200) :=
  have h := GetAWLH_closed_form scenario2 (by decide) (by decide) (by decide) (by decide)
  ⟨h.1, h.2 rfl rfl rfl⟩

/-- C3: InAckWindow(x) is true exactly when AWL <= x <= AWH for the pair GetAWLH returns
on the same socket, so also right after a SetGSS or a ChooseISS; with ISS=150, GSS=200,
SWAF=50 it is false at 150, true at 151 and 200, false at 201. -/
theorem InAckWindow_iff (s : socket) (x v : Nat) (r : Int) :
    (s.InAckWindow x = true ↔ s.GetAWLH.1 ≤ x ∧ x ≤ s.GetAWLH.2) ∧
    ((s.SetGSS v).InAckWindow x = true ↔
      (s.SetGSS v).GetAWLH.1 ≤ x ∧ x ≤ (s.SetGSS v).GetAWLH.2) ∧
    ((s.ChooseISS r).1.InAckWindow x = true ↔
      (s.ChooseISS r).1.GetAWLH.1 ≤ x ∧ x ≤ (s.ChooseISS r).1.GetAWLH.2) ∧
    (s.ISS = 150 → s.GSS = 200 → s.SWAF = 50 →
      s.InAckWindow 150 = false ∧ s.InAckWindow 151 = true ∧
        s.InAckWindow 200 = true ∧ s.InAckWindow 201 = false) := by
  have gen : ∀ (t : socket) (y : Nat),
      t.InAckWindow y = true ↔ t.GetAWLH.1 ≤ y ∧ y ≤ t.GetAWLH.2 := by
    intro t y
    simp [socket.InAckWindow]
  refine ⟨gen s x, gen _ x, gen _ x, ?_⟩
  intro h1 h2 h3
  have hw : s.GetAWLH = (151, 200) := by
    simp only [socket.GetAWLH, h1, h2, h3]
    rfl
  have hf : ∀ y, s.InAckWindow y = (decide (151 ≤ y) && decide (y ≤ 200)) := by
    intro y
    simp only [socket.InAckWindow, hw]
  refine ⟨?_, ?_, ?_, ?_⟩ <;> rw [hf] <;> rfl

theorem InAckWindow_iff_witness :
    scenario2.InAckWindow 150 = false ∧ scenario2.InAckWindow 151 = true ∧
      scenario2.InAckWindow 200 = true ∧ scenario2.InAckWindow 201 = false :=
  (InAckWindow_iff scenario2 0 0 0).2.2.2 rfl rfl rfl

/-! ## Monotone updates -/

/-- C4: after UpdateGSR(v) the field GSR is the numeric maximum of the old GSR and v; GSR
does not decrease, a second UpdateGSR(v) changes nothing, and when v <= old GSR the
socket is left exactly as it was. -/
theorem UpdateGSR_max (s : socket) (v : Nat) :
    (s.UpdateGSR v).GSR = max s.GSR v ∧
    s.GSR ≤ (s.UpdateGSR v).GSR ∧
    (s.UpdateGSR v).UpdateGSR v = s.UpdateGSR v ∧
    (v ≤ s.GSR → s.UpdateGSR v = s) := by
  refine ⟨?_, ?_, ?_, ?_⟩
  · simp only [socket.UpdateGSR, maxu64_eq_max]
  · simp only [socket.UpdateGSR, maxu64_eq_max]
    exact le_max_left _ _
  · simp only [socket.UpdateGSR, maxu64_eq_max]
    rw [max_eq_left (le_max_right _ _)]
  · intro h
    simp only [socket.UpdateGSR, maxu64_eq_max, max_eq_left h]

theorem UpdateGSR_max_witness :
    (scenario1.UpdateGSR 70).GSR = 130 ∧ scenario1.UpdateGSR 70 = scenario1 ∧
      (scenario1.UpdateGSR 170).GSR = 170 :=
  ⟨(UpdateGSR_max scenario1 70).1, (UpdateGSR_max scenario1 70).2.2.2 (by decide),
    (UpdateGSR_max scenario1 170).1⟩

/-- C5: after UpdateGAR(v) the field GAR is the numeric maximum of the old GAR and v; GAR
does not decrease, and when v <= old GAR the socket is left exactly as it was. -/
theorem UpdateGAR_max (s : socket) (v : Nat) :
    (s.UpdateGAR v).GAR = max s.GAR v ∧
    s.GAR ≤ (s.UpdateGAR v).GAR ∧
    (v ≤ s.GAR → s.UpdateGAR v = s) := by
  refine ⟨?_, ?_, ?_⟩
  · simp only [socket.UpdateGAR, maxu64_eq_max]
  · simp only [socket.UpdateGAR, maxu64_eq_max]
    exact le_max_left _ _
  · intro h
    simp only [socket.UpdateGAR, maxu64_eq_max, max_eq_left h]

theorem UpdateGAR_max_witness :
    (scenario2.UpdateGAR 0).GAR = 0 ∧ scenario2.UpdateGAR 0 = scenario2 ∧
      (scenario2.UpdateGAR 180).GAR = 180 :=
  ⟨(UpdateGAR_max scenario2 0).1, (UpdateGAR_max scenario2 0).2.2 (by decide),
    (UpdateGAR_max scenario2 180).1⟩

/-! ## Initial sequence number -/

/-- C6: for a draw r of rand.Int63 with 0 <= r < 2^63, ChooseISS returns r AND 0xffffff,
which is r modulo 2^24 and lies in [0, 2^24 - 1], and the field ISS after the call is the
value returned. -/
theorem ChooseISS_masked (s : socket) (r : Int) (h0 : 0 ≤ r) (h1 : r < 2 ^ 63) :
    (s.ChooseISS r).2 = r.toNat &&& 0xffffff ∧
    ((s.ChooseISS r).2 : Int) = r % 2 ^ 24 ∧
    (s.ChooseISS r).2 ≤ 2 ^ 24 - 1 ∧
    (s.ChooseISS r).1.ISS = (s.ChooseISS r).2 := by
  have hr : uint64OfInt64 r = r.toNat := by
    unfold uint64OfInt64
    congr 1
    apply Int.emod_eq_of_lt h0
    simp only [U64]
    omega
  have hm : r.toNat &&& 0xffffff = r.toNat % 2 ^ 24 :=
    Nat.and_pow_two_sub_one_eq_mod r.toNat 24
  refine ⟨?_, ?_, ?_, rfl⟩
  · simp only [socket.ChooseISS, hr]
  · simp only [socket.ChooseISS, hr, hm]
    omega
  · simp only [socket.ChooseISS, hr, hm]
    omega

theorem ChooseISS_masked_witness :
    (scenario2.ChooseISS 16777217).2 = 1 ∧ (scenario2.ChooseISS 16777217).1.ISS = 1 :=
  have h := ChooseISS_masked scenario2 16777217 (by decide) (by decide)
  ⟨h.1.trans (by decide), h.2.2.2.trans (h.1.trans (by decide))⟩

/-! ## The window formulas on arbitrary 64-bit values -/

/-- The window computations as the source performs them, in unsigned 64-bit arithmetic:
every sum, difference and product is reduced modulo `2 ^ 64`. -/
theorem window_formulas_wrapping (s : socket) (h : s.InRange) :
    (s.GetSWLH.1 : Int) =
        max (((s.GSR : Int) + 1 - (s.SWBF : Int) / 4) % 2 ^ 64) (s.ISR : Int) ∧
      (s.GetSWLH.2 : Int) = ((s.GSR : Int) + (3 * (s.SWBF : Int)) % 2 ^ 64 / 4) % 2 ^ 64 ∧
      (s.GetAWLH.1 : Int) = max (((s.GSS : Int) + 1 - (s.SWAF : Int)) % 2 ^ 64) (s.ISS : Int) := by
  obtain ⟨-, -, -, hGSS, hGSR, -, hSWBF, hSWAF⟩ := h
  simp only [U64] at hGSS hGSR hSWBF hSWAF
  refine ⟨?_, ?_, ?_⟩
  · simp only [socket.GetSWLH, maxu64_eq_max, subu64, addu64, U64]
    omega
  · simp only [socket.GetSWLH, mulu64, addu64, U64]
    push_cast
    norm_num
  · simp only [socket.GetAWLH, maxu64_eq_max, subu64, addu64, U64]
    omega

/-- C7, as stated, fails: on the 64-bit socket with GSR = 2^64 - 1 and SWBF = 4 the
integer formula gives SWH = 2^64 + 2, which no 64-bit result can be; GetSWLH returns
SWH = 2. -/
theorem window_formulas_fail_above_range :
    highSocket.InRange ∧
    (highSocket.GetSWLH.2 : Int) = 2 ∧
    (highSocket.GSR : Int) + (3 * (highSocket.SWBF : Int)) / 4 = 18446744073709551618 := by
  refine ⟨by decide, by decide, by decide⟩

/-- C7, amended: for 64-bit field values AWH = GSS always, and each of SWL, SWH and AWL is
the integer value of its closed-form formula whenever the integer values met on the way
stay in [0, 2^64): GSR + 1 - SWBF/4 for SWL, 3*SWBF and GSR + 3*SWBF/4 for SWH,
GSS + 1 - SWAF for AWL. -/
theorem window_formulas_in_range (s : socket) (h : s.InRange) :
    (s.GetAWLH.2 : Int) = (s.GSS : Int) ∧
    (0 ≤ (s.GSR : Int) + 1 - (s.SWBF : Int) / 4 → (s.GSR : Int) + 1 - (s.SWBF : Int) / 4 < 2 ^ 64 →
      (s.GetSWLH.1 : Int) = max ((s.GSR : Int) + 1 - (s.SWBF : Int) / 4) (s.ISR : Int)) ∧
    (3 * (s.SWBF : Int) < 2 ^ 64 → (s.GSR : Int) + (3 * (s.SWBF : Int)) / 4 < 2 ^ 64 →
      (s.GetSWLH.2 : Int) = (s.GSR : Int) + (3 * (s.SWBF : Int)) / 4) ∧
    (0 ≤ (s.GSS : Int) + 1 - (s.SWAF : Int) → (s.GSS : Int) + 1 - (s.SWAF : Int) < 2 ^ 64 →
      (s.GetAWLH.1 : Int) = max ((s.GSS : Int) + 1 - (s.SWAF : Int)) (s.ISS : Int)) := by
  obtain ⟨eL, eH, eA⟩ := window_formulas_wrapping s h
  refine ⟨rfl, ?_, ?_, ?_⟩
  · intro h0 h1
    rw [eL, Int.emod_eq_of_lt h0 h1]
  · intro h0 h1
    rw [eH, Int.emod_eq_of_lt (by omega) h0, Int.emod_eq_of_lt (by omega) h1]
  · intro h0 h1
    rw [eA, Int.emod_eq_of_lt h0 h1]

theorem window_formulas_in_range_witness :
    (highSocket.GetSWLH.1 : Int) =
        max ((highSocket.GSR : Int) + 1 - (highSocket.SWBF : Int) / 4) (highSocket.ISR : Int) ∧
      (scenario1.GetSWLH.2 : Int) = (scenario1.GSR : Int) + (3 * (scenario1.SWBF : Int)) / 4 ∧
      (scenario2.GetAWLH.1 : Int) =
        max ((scenario2.GSS : Int) + 1 - (scenario2.SWAF : Int)) (scenario2.ISS : Int) :=
  ⟨(window_formulas_in_range highSocket (by decide)).2.1 (by decide) (by decide),
    (window_formulas_in_range scenario1 (by decide)).2.2.1 (by decide) (by decide),
    (window_formulas_in_range scenario2 (by decide)).2.2.2 (by decide) (by decide)⟩

/-! ## Invariants over calls -/

/-- The state tag after a call: the argument of a `SetState`, and otherwise the tag
before the call. -/
theorem State_after (s : socket) (c : Call) :
    (s.after c).State = match c with
      | .SetState v => v
      | _ => s.State := by
  cases c <;> rfl

/-- C8, as stated, fails: the socket with ISR = 100, GSR = 130, ISS = GSS = 0 satisfies
GSR >= ISR and GSS >= ISS, and the mutating call SetGSR(0) leaves GSR = 0, below ISR and
below the old GSR. -/
theorem SetGSR_breaks_order :
    scenario1.SeqInv ∧ (Call.SetGSR 0).mutates = true ∧ (Call.SetGSR 0).InRange ∧
    ¬ (scenario1.after (Call.SetGSR 0)).SeqInv ∧
    (scenario1.after (Call.SetGSR 0)).GSR < scenario1.GSR := by
  refine ⟨by decide, rfl, by decide, by decide, by decide⟩

/-- C8, amended: from a socket with GSR >= ISR and GSS >= ISS, a call yields a socket
that still satisfies both, with GSR and GSS not decreased, exactly when it keeps the
order: every call of SetServer, SetState, SetOSR, SetGAR, UpdateGSR, UpdateGAR and of
the readers does; SetGSS(v) does iff v >= GSS, SetGSR(v) iff v >= GSR, SetISR(v) iff
v <= GSR, and ChooseISS iff the value it draws is <= GSS. -/
theorem order_kept_iff (s : socket) (c : Call) (h : s.SeqInv) :
    ((s.after c).SeqInv ∧ s.GSR ≤ (s.after c).GSR ∧ s.GSS ≤ (s.after c).GSS) ↔
      c.keepsOrder s := by
  obtain ⟨hR, hS⟩ := h
  cases c <;>
    simp only [socket.after, socket.SeqInv, Call.keepsOrder, socket.SetServer, socket.SetState,
      socket.ChooseISS, socket.SetISR, socket.SetOSR, socket.SetGSS, socket.SetGSR,
      socket.UpdateGSR, socket.SetGAR, socket.UpdateGAR, maxu64_eq_max] <;>
    constructor <;> intro _ <;> first
      | trivial
      | omega

theorem order_kept_iff_witness :
    (scenario1.after (Call.UpdateGSR 7)).SeqInv ∧
      scenario1.GSR ≤ (scenario1.after (Call.UpdateGSR 7)).GSR ∧
      scenario1.GSS ≤ (scenario1.after (Call.UpdateGSR 7)).GSS :=
  (order_kept_iff scenario1 (Call.UpdateGSR 7) (by decide)).2 trivial

/-- C9, as stated, fails: one call SetState(9) on the zero-valued socket leaves
State = 9, which is none of the nine constants. -/
theorem SetState_leaves_the_nine :
    (Call.SetState 9).InRange ∧
    (socket.zero.afterAll [Call.SetState 9]).State = 9 ∧
    ¬ validState (socket.zero.afterAll [Call.SetState 9]).State := by
  refine ⟨by decide, rfl, by decide⟩

/-- C9, amended: for every socket reached from the zero-valued socket by a finite
sequence of calls in which every SetState argument is one of the nine constants, the
field State is one of the nine constants, 0 <= State <= 8. -/
theorem State_valid_of_valid_SetState (cs : List Call)
    (h : ∀ v, Call.SetState v ∈ cs → validState v) :
    validState (socket.zero.afterAll cs).State := by
  have gen : ∀ (l : List Call) (s : socket), validState s.State →
      (∀ v, Call.SetState v ∈ l → validState v) → validState (s.afterAll l).State := by
    intro l
    induction l with
    | nil =>
      intro s hs _
      exact hs
    | cons c l ih =>
      intro s hs hl
      have hc : validState (s.after c).State := by
        rw [State_after]
        cases c <;> first
          | exact hs
          | exact hl _ (List.mem_cons_self _ _)
      exact ih (s.after c) hc (fun v hv => hl v (List.mem_cons_of_mem _ hv))
  exact gen cs socket.zero (by decide) h

theorem State_valid_of_valid_SetState_witness :
    validState
      (socket.zero.afterAll [Call.SetState LISTEN, Call.ChooseISS 5, Call.SetState OPEN]).State :=
  State_valid_of_valid_SetState _ (by
    intro v hv
    simp only [List.mem_cons, List.mem_singleton, Call.SetState.injEq, List.mem_nil_iff,
      reduceCtorEq, or_false, false_or] at hv
    rcases hv with rfl | rfl <;> decide)

/-- C10: every call other than SetState (SetServer, IsServer, GetState, ChooseISS, SetISR,
GetOSR, SetOSR, GetGSS, SetGSS, GetGSR, SetGSR, UpdateGSR, GetGAR, SetGAR, UpdateGAR,
GetSWLH, GetAWLH, InAckWindow, with any argument) leaves the field State equal to its
value before the call. -/
theorem State_only_by_SetState (s : socket) (c : Call) (h : c.isSetState = false) :
    (s.after c).State = s.State := by
  cases c <;> first
    | rfl
    | simp [Call.isSetState] at h

theorem State_only_by_SetState_witness :
    ((socket.zero.SetState OPEN).after (Call.ChooseISS 5)).State = OPEN :=
  State_only_by_SetState (socket.zero.SetState OPEN) (Call.ChooseISS 5) rfl

/-! ## Accessors and mutators -/

/-- C11: accessor/mutator pairs round-trip exactly: GetState after SetState(v) returns v,
and likewise GetOSR after SetOSR(v), GetGSS after SetGSS(v), GetGSR after SetGSR(v),
GetGAR after SetGAR(v) and IsServer after SetServer(b). -/
theorem accessors_round_trip (s : socket) (v : Nat) (w : Int) (b : Bool) :
    (s.SetState w).GetState = w ∧
    (s.SetOSR v).GetOSR = v ∧
    (s.SetGSS v).GetGSS = v ∧
    (s.SetGSR v).GetGSR = v ∧
    (s.SetGAR v).GetGAR = v ∧
    (s.SetServer b).IsServer = b :=
  ⟨rfl, rfl, rfl, rfl, rfl, rfl⟩

/-- C12: two UpdateGSR calls give the same final socket in either order, with
GSR = max(old GSR, a, b); from a socket with GSR < 50, the values 50 and 70 in either
order leave GSR = 70. -/
theorem UpdateGSR_comm (s : socket) (a b : Nat) :
    (s.UpdateGSR a).UpdateGSR b = (s.UpdateGSR b).UpdateGSR a ∧
    ((s.UpdateGSR a).UpdateGSR b).GSR = max (max s.GSR a) b ∧
    (s.GSR < 50 →
      ((s.UpdateGSR 50).UpdateGSR 70).GSR = 70 ∧ ((s.UpdateGSR 70).UpdateGSR 50).GSR = 70) := by
  refine ⟨?_, ?_, ?_⟩
  · simp only [socket.UpdateGSR, maxu64_eq_max]
    have e : max (max s.GSR a) b = max (max s.GSR b) a := by omega
    rw [e]
  · simp only [socket.UpdateGSR, maxu64_eq_max]
  · intro h
    simp only [socket.UpdateGSR, maxu64_eq_max]
    omega

theorem UpdateGSR_comm_witness :
    ((socket.zero.UpdateGSR 50).UpdateGSR 70).GSR = 70 ∧
      ((socket.zero.UpdateGSR 70).UpdateGSR 50).GSR = 70 :=
  (UpdateGSR_comm socket.zero 0 0).2.2 (by decide)

/-! ## Numeric and circular maximum -/

/-- C13: maxu64(x, y) is the numerically larger of x and y, and for x, y below 2^48 at
numeric distance |x - y| < 2^47 it is the greater of the two in circular sequence space
modulo 2^48: it equals circMax, and neither x nor y is circularly greater than it. -/
theorem maxu64_circular (x y : Nat) (hx : x < 2 ^ 48) (hy : y < 2 ^ 48)
    (hd : |(x : Int) - (y : Int)| < 2 ^ 47) :
    maxu64 x y = max x y ∧
    maxu64 x y = circMax x y ∧
    ¬ circGreater (maxu64 x y) x ∧ ¬ circGreater (maxu64 x y) y := by
  obtain ⟨hd1, hd2⟩ := abs_lt.mp hd
  have hm := maxu64_eq_max x y
  refine ⟨hm, ?_, ?_, ?_⟩
  · simp only [circMax, circGreater, maxu64]
    split <;> split <;> omega
  · rw [hm]
    simp only [circGreater]
    omega
  · rw [hm]
    simp only [circGreater]
    omega

theorem maxu64_circular_witness :
    maxu64 130 70 = 130 ∧ circMax 130 70 = 130 :=
  have h := maxu64_circular 130 70 (by decide) (by decide) (by decide)
  ⟨h.1.trans (by decide), h.2.1.symm.trans (h.1.trans (by decide))⟩

/-! ## Constants -/

/-- C14: the duration constants are, in nanoseconds, MSL = 120,000,000,000,
PARTOPEN_BACKOFF_FIRST = 200,000,000 and PARTOPEN_BACKOFF_MAX = 480,000,000,000, with
PARTOPEN_BACKOFF_MAX = 4 * MSL. -/
theorem duration_constants :
    MSL = 120000000000 ∧ PARTOPEN_BACKOFF_FIRST = 200000000 ∧
    PARTOPEN_BACKOFF_MAX = 480000000000 ∧ PARTOPEN_BACKOFF_MAX = 4 * MSL :=
  ⟨by decide, by decide, by decide, rfl⟩

/-- C15: the nine state constants are CLOSED=0, LISTEN=1, REQUEST=2, RESPOND=3, PARTOPEN=4,
OPEN=5, CLOSEREQ=6, CLOSING=7, TIMEWAIT=8, strictly increasing in that order and so
pairwise distinct. -/
theorem state_constants :
    (CLOSED = 0 ∧ LISTEN = 1 ∧ REQUEST = 2 ∧ RESPOND = 3 ∧ PARTOPEN = 4 ∧ OPEN = 5 ∧
      CLOSEREQ = 6 ∧ CLOSING = 7 ∧ TIMEWAIT = 8) ∧
    (CLOSED < LISTEN ∧ LISTEN < REQUEST ∧ REQUEST < RESPOND ∧ RESPOND < PARTOPEN ∧
      PARTOPEN < OPEN ∧ OPEN < CLOSEREQ ∧ CLOSEREQ < CLOSING ∧ CLOSING < TIMEWAIT) ∧
    [CLOSED, LISTEN, REQUEST, RESPOND, PARTOPEN, OPEN, CLOSEREQ, CLOSING, TIMEWAIT].Nodup := by
  refine ⟨⟨rfl, rfl, rfl, rfl, rfl, rfl, rfl, rfl, rfl⟩, by decide, by decide⟩

/-! ## The windows at the edges of the sequence space -/

/-- C17 at a failing input: with ISS = GSS = 5 and SWAF = 100 (so ISS <= GSS, SWAF >= 1,
all below 2^48) the subtraction GSS + 1 - SWAF wraps, GetAWLH returns
AWL = 2^64 - 94 > AWH = 5, and InAckWindow(GSS) is false. -/
theorem ack_window_rejects_GSS_at_start :
    (earlySocket.ISS ≤ earlySocket.GSS ∧ 1 ≤ earlySocket.SWAF ∧ earlySocket.GSS < 2 ^ 48 ∧
      earlySocket.ISS < 2 ^ 48 ∧ earlySocket.SWAF < 2 ^ 48) ∧
    earlySocket.GetAWLH = (18446744073709551522, 5) ∧
    earlySocket.GetAWLH.2 < earlySocket.GetAWLH.1 ∧
    earlySocket.InAckWindow earlySocket.GSS = false := by
  refine ⟨by decide, by decide, by decide, by decide⟩

/-- C18 at a failing input: with GSR = GAR = 2^48 - 1 the argument 0 is circularly
greater than the stored value, (0 - (2^48 - 1)) mod 2^48 = 1, yet UpdateGSR(0) and
UpdateGAR(0) keep 2^48 - 1; and from the stored value 0 the argument 2^48 - 1, which is
not circularly greater, replaces it. -/
theorem Update_numeric_not_circular :
    (circGreater wrapSocket.GSR 0 ∧ (wrapSocket.UpdateGSR 0).GSR = 281474976710655) ∧
    (circGreater wrapSocket.GAR 0 ∧ (wrapSocket.UpdateGAR 0).GAR = 281474976710655) ∧
    (¬ circGreater socket.zero.GSR 281474976710655 ∧
      (socket.zero.UpdateGSR 281474976710655).GSR = 281474976710655) := by
  refine ⟨⟨by decide, by decide⟩, ⟨by decide, by decide⟩, ⟨by decide, by decide⟩⟩

/-- C19: with no precondition on the field values, the SWL returned by GetSWLH is at
least ISR, the AWL returned by GetAWLH is at least ISS, and the AWH returned by GetAWLH
is GSS. -/
theorem window_lower_bounds (s : socket) :
    s.ISR ≤ s.GetSWLH.1 ∧ s.ISS ≤ s.GetAWLH.1 ∧ s.GetAWLH.2 = s.GSS := by
  refine ⟨?_, ?_, rfl⟩
  · simp only [socket.GetSWLH, maxu64_eq_max]
    exact le_max_right _ _
  · simp only [socket.GetAWLH, maxu64_eq_max]
    exact le_max_right _ _

/-! ## Frame -/

/-- C20: every mutator changes only its own field, so that putting the old value of that
field back gives the socket before the call: Server for SetServer, State for SetState,
ISS for ChooseISS, ISR for SetISR, OSR for SetOSR, GSS for SetGSS, GSR for SetGSR and
UpdateGSR, GAR for SetGAR and UpdateGAR; and every reader (IsServer, GetState, GetOSR,
GetGSS, GetGSR, GetGAR, GetSWLH, GetAWLH, InAckWindow) leaves the whole socket unchanged. -/
theorem one_field_per_mutator (s : socket) (v : Nat) (w r : Int) (b : Bool) (c : Call) :
    ({ s.SetServer b with Server := s.Server } = s ∧
      { s.SetState w with State := s.State } = s ∧
      { (s.ChooseISS r).1 with ISS := s.ISS } = s ∧
      { s.SetISR v with ISR := s.ISR } = s ∧
      { s.SetOSR v with OSR := s.OSR } = s ∧
      { s.SetGSS v with GSS := s.GSS } = s ∧
      { s.SetGSR v with GSR := s.GSR } = s ∧
      { s.UpdateGSR v with GSR := s.GSR } = s ∧
      { s.SetGAR v with GAR := s.GAR } = s ∧
      { s.UpdateGAR v with GAR := s.GAR } = s) ∧
    (c.mutates = false → s.after c = s) := by
  refine ⟨⟨rfl, rfl, rfl, rfl, rfl, rfl, rfl, rfl, rfl, rfl⟩, ?_⟩
  intro h
  cases c <;> first
    | rfl
    | simp [Call.mutates] at h

theorem one_field_per_mutator_witness :
    scenario2.after (Call.InAckWindow 151) = scenario2 ∧
      { scenario2.UpdateGSR 7 with GSR := scenario2.GSR } = scenario2 :=
  ⟨(one_field_per_mutator scenario2 7 0 0 false (Call.InAckWindow 151)).2 rfl,
    (one_field_per_mutator scenario2 7 0 0 false Call.GetGSS).1.2.2.2.2.2.2.2.1⟩

end dccp
